import Mathlib

/-!
Verification of the change-detection and reconciliation core of the
ISG Analyst Dashboard (`src/main.py`).

The source is a Python/Dash application; the values flowing through its
normalization and diff functions are Python scalars.  We embed them as the
inductive type `Val` below:

* `none_`   — Python `None` (and the SQL NULL it stands for);
* `nan`     — a floating-point NaN / pandas missing value (`pd.isna` true);
* `bool_`   — Python `bool`;
* `int_`    — Python `int` (arbitrary precision, as in Python);
* `float_`  — a non-NaN Python float.  Equality between Python numbers is
  exact mathematical comparison (`5 == 5.0` is `True`), so we carry the
  value as an exact fraction (`PyFloat`); the decimal strings the
  normalizer parses are represented exactly;
* `str_`    — Python `str`;
* `uuid_`   — a `uuid.UUID` object, carried as its canonical lowercase
  hyphenated string form (which is what `str(u)` returns);
* `obj_`    — any other, unrecognized Python object, compared by identity
  (modelled by a numeric tag).

Python `==` on these scalars is embedded as `pyEq`: `None` equals only
`None`, NaN equals nothing (not even itself), numbers (`bool`, `int`,
`float`) compare numerically across kinds (`True == 1`, `5 == 5.0`),
strings compare as strings and never equal numbers, and other objects
compare by identity.

String helpers (`pyStrip`, `pyLower`) and the numeric-string parsers
model `str.strip`, `str.lower`, `int(s)` and `float(s)` on the inputs the
program feeds them: ASCII text.  (`int`/`float` corner syntax such as
digit-group underscores and exponents is parse-failure here; such strings
simply stay strings on both sides of every comparison proved below.)
-/

namespace AnalystDashboard

/-- Exact value of a non-NaN Python float, kept as an unreduced fraction
`num / den` with `den` a positive power of ten (every float the program
builds comes from a decimal string).  Python's numeric equality is exact,
embedded below by cross-multiplication. -/
structure PyFloat where
  num : Int
  den : Nat
deriving DecidableEq

/-- Embedded Python scalar values (see the module docstring). -/
inductive Val where
  | none_ : Val
  | nan : Val
  | bool_ : Bool → Val
  | int_ : Int → Val
  | float_ : PyFloat → Val
  | str_ : String → Val
  | uuid_ : String → Val
  | obj_ : Nat → Val
deriving DecidableEq

/-- Characters removed by Python `str.strip()` (ASCII whitespace). -/
def isPySpace (c : Char) : Bool :=
  c = ' ' || c = '\t' || c = '\n' || c = '\r' || c = '\x0b' || c = '\x0c'

/-- Python `str.strip()`. -/
def pyStrip (s : String) : String :=
  ⟨((s.data.dropWhile isPySpace).reverse.dropWhile isPySpace).reverse⟩

/-- Lowercase one ASCII character, as Python `str.lower` does. -/
def lowerChar (c : Char) : Char :=
  if 65 ≤ c.toNat && c.toNat ≤ 90 then Char.ofNat (c.toNat + 32) else c

/-- Python `str.lower()` (ASCII). -/
def pyLower (s : String) : String :=
  ⟨s.data.map lowerChar⟩

/-- Numeric value of a list of decimal digits. -/
def digitsVal (cs : List Char) : Nat :=
  cs.foldl (fun a c => a * 10 + (c.toNat - 48)) 0

/-- Parse a nonempty all-digit string. -/
def parseUnsigned (cs : List Char) : Option Nat :=
  if cs.isEmpty then none
  else if cs.all Char.isDigit then some (digitsVal cs) else none

/-- Python `int(s)` on an already-stripped string: optional sign then
decimal digits; anything else raises (here: `none`). -/
def pyParseInt (s : String) : Option Int :=
  match s.data with
  | '+' :: rest => (parseUnsigned rest).map Int.ofNat
  | '-' :: rest => (parseUnsigned rest).map (fun n => -(n : Int))
  | cs => (parseUnsigned cs).map Int.ofNat

/-- Core of `float(s)`: digits with at most one decimal point, at least
one digit overall.  The exact value `a.b` is `(a·10^|b| + b) / 10^|b|`. -/
def pyParseFloatCore (cs : List Char) : Option PyFloat :=
  match cs.span (fun c => c ≠ '.') with
  | (ip, []) =>
      if ip.isEmpty then none
      else if ip.all Char.isDigit then some ⟨(digitsVal ip : Int), 1⟩ else none
  | (ip, _ :: fp) =>
      if fp.any (fun c => c = '.') then none
      else if ip.isEmpty && fp.isEmpty then none
      else if ip.all Char.isDigit && fp.all Char.isDigit then
        some ⟨(digitsVal ip * 10 ^ fp.length + digitsVal fp : Int), 10 ^ fp.length⟩
      else none

/-- Python `float(s)`: strips whitespace itself, optional sign, then
digits with at most one decimal point. -/
def pyParseFloat (s : String) : Option PyFloat :=
  match (pyStrip s).data with
  | '+' :: cs => pyParseFloatCore cs
  | '-' :: cs => (pyParseFloatCore cs).map (fun f => ⟨-f.num, f.den⟩)
  | cs => pyParseFloatCore cs

/-- Numeric reading of a value for Python `==`, as an exact fraction:
`bool` counts as 0/1. -/
def numVal : Val → Option PyFloat
  | .bool_ b => some ⟨if b then 1 else 0, 1⟩
  | .int_ n => some ⟨n, 1⟩
  | .float_ f => some f
  | _ => none

/-- Python `==` on the embedded scalars: NaN equals nothing, `None` only
itself, numbers compare numerically (exactly) across the
`bool`/`int`/`float` kinds, strings as strings, UUIDs by value, other
objects by identity. -/
def pyEq (a b : Val) : Bool :=
  match a, b with
  | .nan, _ => false
  | _, .nan => false
  | .none_, .none_ => true
  | .str_ x, .str_ y => x == y
  | .uuid_ x, .uuid_ y => x == y
  | .obj_ x, .obj_ y => x == y
  | a, b =>
      match numVal a, numVal b with
      | some x, some y => decide (x.num * (y.den : Int) = y.num * (x.den : Int))
      | _, _ => false

/-- Embedding of `normalize_value` (src/main.py lines 48–77): `None` and
NaN to `None`; a UUID to its string; a string is stripped, the
case-insensitive literals true/false become booleans, a string containing
a dot that parses as a float becomes a float, otherwise an integer parse
is attempted, otherwise the stripped string is kept; everything else is
returned unchanged. -/
def normalize_value : Val → Val
  | .none_ => .none_
  | .nan => .none_
  | .uuid_ u => .str_ u
  | .str_ v =>
      let s := pyStrip v
      if pyLower s == "true" then .bool_ true
      else if pyLower s == "false" then .bool_ false
      else if s.data.contains '.' then
        match pyParseFloat s with
        | some q => .float_ q
        | none => .str_ s
      else
        match pyParseInt s with
        | some n => .int_ n
        | none => .str_ s
  | v => v

/-- Embedding of `clean_value` (src/main.py lines 29–45): `None` and NaN
become `None`; a string whose stripped lowercase form is "nan", "<na>" or
empty becomes `None`; everything else is returned unchanged.  (The
`pd.Series` unwrapping branch is not modelled: in the save path the
function is only applied to scalar cells.) -/
def clean_value : Val → Val
  | .none_ => .none_
  | .nan => .none_
  | .str_ v =>
      if pyLower (pyStrip v) == "nan" || pyLower (pyStrip v) == "<na>"
          || pyLower (pyStrip v) == "" then .none_
      else .str_ v
  | v => v

/-- A row is a field-name/value mapping; `Row.get` is `row.get(col)`,
returning `None` when the field is absent.  (pandas materializes an
absent cell of a present column as NaN rather than `None`; both normalize
and clean to `None`, and only normalized or cleaned values are ever
compared or stored in the paths modelled here.) -/
abbrev Row : Type := List (String × Val)

/-- Python `row.get(col)`: the value, or `None` when absent. -/
def Row.get (r : Row) (c : String) : Val :=
  (List.lookup c r).getD Val.none_

/-- Embedding of `rows_differ` (src/main.py lines 80–86): some column in
`cols` whose normalized values differ under Python `==`. -/
def rows_differ (row1 row2 : Row) (cols : List String) : Bool :=
  cols.any (fun col =>
    !pyEq (normalize_value (Row.get row1 col)) (normalize_value (Row.get row2 col)))

/-- The unique-identifier column (`UNIQUE_COL`, src/main.py line 26). -/
def UNIQUE_COL : String := "news_id"

/-- The editable columns diffed and written by `save_changes`
(src/main.py lines 367–375). -/
def editable_cols : List String :=
  ["analyst_dup", "analyst_cat", "analyst_cat_id", "analyst_risk_level",
   "analyst_tag", "analyst_approval", "analyst_remark"]

/-- Python `str(v)`, as applied by `new_df[UNIQUE_COL].astype(str)` to
the identifier column.  (Floats are rendered only up to an injective
placeholder: no modelled scenario uses a float identifier.) -/
def pyStr : Val → String
  | .none_ => "None"
  | .nan => "nan"
  | .bool_ b => if b then "True" else "False"
  | .int_ n => toString n
  | .float_ f => "float:" ++ toString f.num ++ "/" ++ toString f.den
  | .str_ s => s
  | .uuid_ u => u
  | .obj_ t => "obj:" ++ toString t

/-- Whether the submitted payload has the unique-identifier column: a
`pd.DataFrame(rows)` has a column iff some row dict carries the key
(src/main.py line 340). -/
def hasUniqueCol (rows : List Row) : Bool :=
  rows.any (fun r => (List.lookup UNIQUE_COL r).isSome)

/-- The client table as indexed by `new_df.set_index(UNIQUE_COL)` after
`astype(str)` (src/main.py lines 344–345): each submitted row keyed by
the string form of its identifier, in submission order. -/
def clientTable (rows : List Row) : List (String × Row) :=
  rows.map (fun r => (pyStr (Row.get r UNIQUE_COL), r))

/-- Whether one client entry is marked changed (the body of the diff
loop, src/main.py lines 379–385): an identifier absent from the baseline
is always marked; otherwise the rows are compared on the editable
columns. -/
def rowChanged (base : List (String × Row)) (cols : List String)
    (p : String × Row) : Bool :=
  match List.lookup p.1 base with
  | none => true
  | some old => rows_differ p.2 old cols

/-- The changed identifier set `diff_ids` (src/main.py lines 377–385):
identifiers of the client entries marked changed, in submission order. -/
def computeDiffIds (client : List (String × Row)) (base : List (String × Row))
    (cols : List String) : List String :=
  (client.filter (rowChanged base cols)).map Prod.fst

/-- Outcome messages of the save callback (src/main.py lines 336–341,
387–388, 434). -/
inductive SaveMsg where
  | noRows : SaveMsg
  | missingUnique : String → SaveMsg
  | noChanges : SaveMsg
  | saved : Nat → SaveMsg
deriving DecidableEq

/-- Observable effect of one invocation of the save callback: the popup
message, whether the baseline `SELECT` ran, whether a write transaction
(`engine.begin()`) was opened, and the identifiers updated, in order. -/
structure SaveTrace where
  msg : SaveMsg
  readBaseline : Bool
  openedWriteTxn : Bool
  writes : List String
deriving DecidableEq

/-- Embedding of the save path of `save_changes` (src/main.py lines
332–434), with the freshly loaded baseline (the `SELECT` of lines
348–365, identifiers already cast to text) supplied as `base`: empty
payload and missing identifier column return early with a message and no
store access; an empty diff reports "No changes to save" without opening
a write transaction; otherwise one update per changed identifier is
executed inside one transaction and the count is reported.  (The
close-popup branch and the popup styling are UI glue, not modelled.) -/
def save_changes (rows : List Row) (base : List (String × Row)) : SaveTrace :=
  if rows.isEmpty then ⟨.noRows, false, false, []⟩
  else if !hasUniqueCol rows then ⟨.missingUnique UNIQUE_COL, false, false, []⟩
  else
    let ids := computeDiffIds (clientTable rows) base editable_cols
    if ids.isEmpty then ⟨.noChanges, true, false, []⟩
    else ⟨.saved ids.length, true, true, ids⟩

/-- Truncation toward zero, the behaviour of Python `int(float)`. -/
def pyFloatTrunc (f : PyFloat) : Int :=
  f.num.tdiv (f.den : Int)

/-- Python `float(x)` as an exact fraction, for the inputs
`int(float(...))` can see in the save loop: numbers convert exactly,
numeric strings parse, everything else raises (here: `none`). -/
def pyFloatOf : Val → Option PyFloat
  | .bool_ b => some ⟨if b then 1 else 0, 1⟩
  | .int_ n => some ⟨n, 1⟩
  | .float_ f => some f
  | .str_ s => pyParseFloat s
  | _ => none

/-- The risk-level coercion of the write loop (src/main.py lines
404–408): a non-null value is replaced by `int(float(value))` when that
succeeds, and kept raw otherwise. -/
def riskCoerce (v : Val) : Val :=
  if v = .none_ then .none_
  else
    match pyFloatOf v with
    | some f => .int_ (pyFloatTrunc f)
    | none => v

/-- Hexadecimal digit test, for `uuid.UUID` parsing. -/
def isHexDigit (c : Char) : Bool :=
  c.isDigit || (97 ≤ c.toNat && c.toNat ≤ 102) || (65 ≤ c.toNat && c.toNat ≤ 70)

/-- Python `str.strip` with a brace character set, as `uuid.UUID` applies
to its argument. -/
def stripBraces (cs : List Char) : List Char :=
  ((cs.dropWhile (fun c => c = '{' || c = '}')).reverse.dropWhile
    (fun c => c = '{' || c = '}')).reverse

/-- Canonical hyphenated form of 32 lowercase hex digits (8-4-4-4-12),
which is what `str` of a `uuid.UUID` prints. -/
def canonicalUuid (h : List Char) : String :=
  ⟨h.take 8 ++ '-' :: ((h.drop 8).take 4 ++ '-' :: ((h.drop 12).take 4 ++
    '-' :: ((h.drop 16).take 4 ++ '-' :: h.drop 20)))⟩

/-- Model of `uuid.UUID(s)`: braces stripped from the ends, hyphens
removed, then exactly 32 hex digits are required; the result is carried
as its canonical lowercase string.  (The `urn:uuid:` prefix form is not
modelled.) -/
def uuidParse (s : String) : Option String :=
  let core := (stripBraces s.data).filter (fun c => c ≠ '-')
  if core.length = 32 && core.all isHexDigit then
    some (canonicalUuid (core.map lowerChar))
  else none

/-- The category-identifier coercion of the write loop (src/main.py lines
410–415): a non-null value is replaced by `uuid.UUID(str(value))` when
that succeeds, and kept raw otherwise. -/
def catIdCoerce (v : Val) : Val :=
  if v = .none_ then .none_
  else
    match uuidParse (pyStr v) with
    | some u => .uuid_ u
    | none => v

/-- Modelled from the spec: the store round-trip of one written cell.
The write (`UPDATE ... SET col = :col`) and the next baseline read are
outside the source under src/ (they happen in PostgreSQL); per §4.2 and
§6 of the spec the store persists the given payload and the next baseline
`SELECT` returns it with opaque identifier columns cast to their
canonical string form (`news_id::text`, `analyst_cat_id::text`), so a
UUID value reads back as its canonical string and every other value reads
back unchanged. -/
def dbRoundtrip : Val → Val
  | .uuid_ u => .str_ u
  | v => v

/-- The value that ends up stored for column `c` when the write loop
processes a client value `v` (src/main.py lines 394–415 plus the store
round-trip): `clean_value`, then the risk-level and category-identifier
coercions, then `dbRoundtrip`. -/
def colStore (c : String) (v : Val) : Val :=
  dbRoundtrip
    (let v1 := clean_value v
     let v2 := if c = "analyst_risk_level" then riskCoerce v1 else v1
     if c = "analyst_cat_id" then catIdCoerce v2 else v2)

/-- The baseline row a written client row produces on the next baseline
read: exactly the editable columns, each holding its stored value. -/
def storedRow (r : Row) : Row :=
  editable_cols.map (fun c => (c, colStore c (Row.get r c)))

/-- Modelled from the spec: the database state after a save commits.
Each identifier in the changed set has its editable columns overwritten
with the stored payload built from the first client row carrying that
identifier (`new_df.loc[[id]].iloc[0]`, src/main.py line 393); the write
is an `UPDATE ... WHERE news_id = :news_id`, so identifiers absent from
the table are not inserted and every other row is untouched. -/
def commitSave (rows : List Row) (base : List (String × Row)) :
    List (String × Row) :=
  if rows.isEmpty || !hasUniqueCol rows then base
  else
    let client := clientTable rows
    let ids := computeDiffIds client base editable_cols
    base.map (fun q =>
      (q.1,
        if q.1 ∈ ids then
          match List.lookup q.1 client with
          | some r => storedRow r
          | none => q.2
        else q.2))

/-- Round-trip stability of one client cell for column `c`: its
normalized form compares Python-equal to the normalized form of what the
save pipeline stores for it. -/
def roundtripStable (c : String) (v : Val) : Bool :=
  pyEq (normalize_value v) (normalize_value (colStore c v))

/-- Kind classes of a normalized value, for the type-stability claims:
the universal null, the numeric kinds (boolean, integer, float — Python
compares these across kinds), strings, and opaque objects. -/
inductive NormClass where
  | nullC : NormClass
  | numC : NormClass
  | strC : NormClass
  | objC : NormClass
deriving DecidableEq

/-- Kind class of a value (NaN counts as numeric; it equals nothing, so
no equality fact depends on its class). -/
def normClass : Val → NormClass
  | .none_ => .nullC
  | .nan => .numC
  | .bool_ _ => .numC
  | .int_ _ => .numC
  | .float_ _ => .numC
  | .str_ _ => .strC
  | .uuid_ _ => .objC
  | .obj_ _ => .objC

/-- Values of the kinds the normalizer passes through unchanged:
already-typed booleans, integers, floats, and unrecognized objects. -/
def passthrough : Val → Bool
  | .bool_ _ => true
  | .int_ _ => true
  | .float_ _ => true
  | .obj_ _ => true
  | _ => false

/-! Helper lemmas about the embedded functions. -/

theorem rows_differ_eq_false {row1 row2 : Row} {cols : List String} :
    rows_differ row1 row2 cols = false ↔
      ∀ c ∈ cols,
        pyEq (normalize_value (Row.get row1 c)) (normalize_value (Row.get row2 c)) = true := by
  simp [rows_differ]

theorem mem_computeDiffIds {client base : List (String × Row)} {cols : List String}
    {id : String} :
    id ∈ computeDiffIds client base cols ↔
      ∃ r, (id, r) ∈ client ∧ rowChanged base cols (id, r) = true := by
  constructor
  · intro h
    obtain ⟨⟨i, r⟩, hm, hi⟩ := List.mem_map.1 h
    obtain ⟨hmem, hch⟩ := List.mem_filter.1 hm
    cases hi
    exact ⟨r, hmem, hch⟩
  · rintro ⟨r, hmem, hch⟩
    exact List.mem_map.2 ⟨(id, r), List.mem_filter.2 ⟨hmem, hch⟩, rfl⟩

theorem computeDiffIds_eq_nil {client base : List (String × Row)} {cols : List String}
    (h : ∀ p ∈ client, rowChanged base cols p = false) :
    computeDiffIds client base cols = [] := by
  have hf : client.filter (rowChanged base cols) = [] := by
    rw [List.filter_eq_nil_iff]
    intro p hp
    simp [h p hp]
  simp [computeDiffIds, hf]

theorem lookup_eq_of_mem_of_nodup :
    ∀ {l : List (String × Row)} {k : String} {v : Row},
      (l.map Prod.fst).Nodup → (k, v) ∈ l → List.lookup k l = some v
  | (a, b) :: t, k, v, hnd, hm => by
      rcases List.mem_cons.1 hm with heq | hmt
      · cases heq
        simp [List.lookup]
      · rw [List.map_cons] at hnd
        have hnd' := List.nodup_cons.1 hnd
        have hka : k ≠ a := by
          intro hka
          exact hnd'.1 (by
            subst hka
            exact List.mem_map.2 ⟨(k, v), hmt, rfl⟩)
        have hb : (k == a) = false := by simp [hka]
        simp only [List.lookup, hb]
        exact lookup_eq_of_mem_of_nodup hnd'.2 hmt

theorem lookup_map_keyed (g : String → Row → Row) :
    ∀ (l : List (String × Row)) (k : String),
      List.lookup k (l.map (fun q => (q.1, g q.1 q.2))) =
        (List.lookup k l).map (g k)
  | [], _ => rfl
  | (a, b) :: t, k => by
      by_cases hka : k = a
      · subst hka
        simp [List.lookup]
      · have hb : (k == a) = false := by simp [hka]
        simp only [List.map_cons, List.lookup, hb]
        exact lookup_map_keyed g t k

theorem get_storedRow (r : Row) (c : String) (hc : c ∈ editable_cols) :
    Row.get (storedRow r) c = colStore c (Row.get r c) := by
  simp only [editable_cols, List.mem_cons, List.not_mem_nil, or_false] at hc
  rcases hc with rfl | rfl | rfl | rfl | rfl | rfl | rfl <;> rfl

theorem pyEq_class (x y : Val) (h : pyEq x y = true) :
    normClass x = normClass y ∧ (normClass x = NormClass.strC → x = y) ∧
      (x = Val.none_ → y = Val.none_) := by
  cases x <;> cases y <;> simp_all [pyEq, normClass, numVal]

/-! Claim theorems. -/

/-- Claim C1, counterexample: the claim that diff-equal normalized values
always have the same kind is false — `normalize_value "true"` is the
boolean `True` and `normalize_value "1"` is the integer `1`, two
different kinds, yet Python's `==` (as used by `rows_differ`) makes them
compare equal because `True == 1`. -/
theorem normalize_kind_cross_equal_counterexample :
    pyEq (normalize_value (Val.str_ "true")) (normalize_value (Val.str_ "1")) = true ∧
      normalize_value (Val.str_ "true") = Val.bool_ true ∧
      normalize_value (Val.str_ "1") = Val.int_ 1 ∧
      Val.bool_ true ≠ Val.int_ 1 := by decide

/-- Claim C1, amended: normalized values are type-stable for the null,
string and object classes — two normalized values that compare equal
under the diff engine's comparison always lie in the same class among
{null, numeric, string, object}, equal strings are identical, and the
universal null compares equal only to itself; within the numeric class,
however, boolean, integer and float kinds may compare equal across kinds
(True equals 1, 5 equals 5.0), following Python's numeric equality. -/
theorem normalize_type_stable_amended (a b : Val)
    (h : pyEq (normalize_value a) (normalize_value b) = true) :
    normClass (normalize_value a) = normClass (normalize_value b) ∧
      (normClass (normalize_value a) = NormClass.strC →
        normalize_value a = normalize_value b) ∧
      (normalize_value a = Val.none_ → normalize_value b = Val.none_) :=
  pyEq_class _ _ h

theorem normalize_type_stable_amended_witness :
    normClass (normalize_value (Val.str_ " x ")) =
        normClass (normalize_value (Val.str_ "x")) ∧
      (normClass (normalize_value (Val.str_ " x ")) = NormClass.strC →
        normalize_value (Val.str_ " x ") = normalize_value (Val.str_ "x")) ∧
      (normalize_value (Val.str_ " x ") = Val.none_ →
        normalize_value (Val.str_ "x") = Val.none_) :=
  normalize_type_stable_amended (Val.str_ " x ") (Val.str_ "x") (by decide)

/-- Claim C2, counterexample: `normalize_value` does not map the empty
string or the literal token "NaN" to the universal null — it returns
them as strings, and neither compares equal to `normalize_value None`,
so normalize("") == normalize(null) == normalize("NaN") is false. -/
theorem normalize_sentinel_counterexample :
    normalize_value (Val.str_ "") = Val.str_ "" ∧
      normalize_value Val.none_ = Val.none_ ∧
      normalize_value (Val.str_ "NaN") = Val.str_ "NaN" ∧
      pyEq (normalize_value (Val.str_ "")) (normalize_value Val.none_) = false ∧
      pyEq (normalize_value (Val.str_ "NaN")) (normalize_value Val.none_) = false := by
  decide

/-- Claim C2, amended: `normalize_value` maps `None` and actual NaN
values (floating-point NaN / pandas missing values) to the universal
null, but leaves the empty string and the literal not-available tokens
as strings; it is the storage cleaner `clean_value` that maps those
string sentinels ("", "nan", "<NA>", case-insensitively, after
stripping) to the universal null. -/
theorem normalize_null_sentinels_amended :
    normalize_value Val.none_ = Val.none_ ∧
      normalize_value Val.nan = Val.none_ ∧
      clean_value (Val.str_ "") = Val.none_ ∧
      clean_value (Val.str_ "NaN") = Val.none_ ∧
      clean_value (Val.str_ "<NA>") = Val.none_ ∧
      clean_value Val.none_ = Val.none_ ∧
      clean_value Val.nan = Val.none_ := by decide

/-- Claim C5: a client row whose identifier is absent from the freshly
loaded baseline is always included in the changed set and written,
whatever its editable-field values: under a well-formed submission
(nonempty, identifier column present), if some client entry's identifier
has no baseline row, that identifier is in the changed set and among the
identifiers the write transaction updates. -/
theorem diff_conservatism (rows : List Row) (base : List (String × Row))
    (id : String) (r : Row)
    (hcol : hasUniqueCol rows = true)
    (hmem : (id, r) ∈ clientTable rows)
    (habs : List.lookup id base = none) :
    id ∈ computeDiffIds (clientTable rows) base editable_cols ∧
      id ∈ (save_changes rows base).writes := by
  have hchanged : rowChanged base editable_cols (id, r) = true := by
    simp [rowChanged, habs]
  have hid : id ∈ computeDiffIds (clientTable rows) base editable_cols :=
    mem_computeDiffIds.2 ⟨r, hmem, hchanged⟩
  refine ⟨hid, ?_⟩
  have hne : rows.isEmpty = false := by
    cases rows with
    | nil => simp [clientTable] at hmem
    | cons a t => rfl
  have hids : (computeDiffIds (clientTable rows) base editable_cols).isEmpty = false := by
    cases h : computeDiffIds (clientTable rows) base editable_cols with
    | nil => rw [h] at hid; simp at hid
    | cons a t => rfl
  simpa [save_changes, hne, hcol, hids] using hid

theorem diff_conservatism_witness :
    "b" ∈ computeDiffIds
        (clientTable [[("news_id", Val.str_ "b"), ("analyst_tag", Val.str_ "t")]])
        [("a", [("analyst_tag", Val.str_ "t")])] editable_cols ∧
      "b" ∈ (save_changes [[("news_id", Val.str_ "b"), ("analyst_tag", Val.str_ "t")]]
        [("a", [("analyst_tag", Val.str_ "t")])]).writes :=
  diff_conservatism [[("news_id", Val.str_ "b"), ("analyst_tag", Val.str_ "t")]]
    [("a", [("analyst_tag", Val.str_ "t")])] "b"
    [("news_id", Val.str_ "b"), ("analyst_tag", Val.str_ "t")]
    (by decide) (by decide) (by decide)

/-- Claim C6: cross-representation equality under normalization —
`normalize_value "5"` compares equal to `normalize_value 5`, and
`normalize_value s` for any string whose stripped lowercase form is
"true" compares equal to `normalize_value True`, so a client string
representation and the store's native typed value of the same logical
value never register as a change in `rows_differ`. -/
theorem normalize_cross_representation_eq :
    pyEq (normalize_value (Val.str_ "5")) (normalize_value (Val.int_ 5)) = true ∧
      ∀ s : String, pyLower (pyStrip s) = "true" →
        pyEq (normalize_value (Val.str_ s)) (normalize_value (Val.bool_ true)) = true := by
  refine ⟨by decide, ?_⟩
  intro s hs
  have hn : normalize_value (Val.str_ s) = Val.bool_ true := by
    simp [normalize_value, hs]
  rw [hn]
  decide

theorem normalize_cross_representation_eq_witness :
    pyEq (normalize_value (Val.str_ " TrUe ")) (normalize_value (Val.bool_ true)) = true :=
  normalize_cross_representation_eq.2 " TrUe " (by decide)

/-- Claim C8: whenever the save reaches the diff (nonempty payload with
the identifier column) and the computed changed set is empty, the
operation reports exactly "no changes", reads the baseline but opens no
write transaction and executes no update. -/
theorem save_empty_diff_fast_path (rows : List Row) (base : List (String × Row))
    (hne : rows.isEmpty = false) (hcol : hasUniqueCol rows = true)
    (hdiff : computeDiffIds (clientTable rows) base editable_cols = []) :
    save_changes rows base = ⟨SaveMsg.noChanges, true, false, []⟩ := by
  simp [save_changes, hne, hcol, hdiff]

theorem save_empty_diff_fast_path_witness :
    save_changes [[("news_id", Val.str_ "a"), ("analyst_tag", Val.str_ "t")]]
        [("a", [("analyst_tag", Val.str_ "t")])] =
      ⟨SaveMsg.noChanges, true, false, []⟩ :=
  save_empty_diff_fast_path
    [[("news_id", Val.str_ "a"), ("analyst_tag", Val.str_ "t")]]
    [("a", [("analyst_tag", Val.str_ "t")])]
    (by decide) (by decide) (by decide)

/-- Claim C9: a malformed submission — an empty payload or one lacking
the unique-identifier column — returns a user-visible message and
performs no store access at all: the baseline is not read, no write
transaction is opened, and nothing is updated. -/
theorem save_malformed_no_store_access (rows : List Row) (base : List (String × Row))
    (h : rows = [] ∨ hasUniqueCol rows = false) :
    (save_changes rows base).readBaseline = false ∧
      (save_changes rows base).openedWriteTxn = false ∧
      (save_changes rows base).writes = [] ∧
      ((save_changes rows base).msg = SaveMsg.noRows ∨
        (save_changes rows base).msg = SaveMsg.missingUnique UNIQUE_COL) := by
  rcases h with h | h
  · subst h
    simp [save_changes]
  · by_cases hne : rows.isEmpty
    · simp [save_changes, hne]
    · simp [save_changes, hne, h]

theorem save_malformed_no_store_access_witness :
    (save_changes [[("analyst_tag", Val.str_ "t")]]
        [("a", [("analyst_tag", Val.str_ "t")])]).readBaseline = false ∧
      (save_changes [[("analyst_tag", Val.str_ "t")]]
        [("a", [("analyst_tag", Val.str_ "t")])]).openedWriteTxn = false ∧
      (save_changes [[("analyst_tag", Val.str_ "t")]]
        [("a", [("analyst_tag", Val.str_ "t")])]).writes = [] ∧
      ((save_changes [[("analyst_tag", Val.str_ "t")]]
        [("a", [("analyst_tag", Val.str_ "t")])]).msg = SaveMsg.noRows ∨
        (save_changes [[("analyst_tag", Val.str_ "t")]]
          [("a", [("analyst_tag", Val.str_ "t")])]).msg =
            SaveMsg.missingUnique UNIQUE_COL) :=
  save_malformed_no_store_access [[("analyst_tag", Val.str_ "t")]]
    [("a", [("analyst_tag", Val.str_ "t")])] (Or.inr (by decide))

/-- Claim C10: `normalize_value` is a pure, total Lean function (defined
by structural cases, it returns a result on every input and cannot
fail), and any value not matching a normalization rule — an
already-typed boolean, integer or float, or an unrecognized opaque
object — is returned unchanged. -/
theorem normalize_total_passthrough (v : Val) (h : passthrough v = true) :
    normalize_value v = v := by
  cases v <;> first | rfl | simp [passthrough] at h

theorem normalize_total_passthrough_witness :
    normalize_value (Val.obj_ 0) = Val.obj_ 0 :=
  normalize_total_passthrough (Val.obj_ 0) rfl

/-- Two submitted rows carrying the same identifier "a" (differing in
their tag), for the duplicate-identifier counterexamples. -/
def dupRowT : Row := [("news_id", Val.str_ "a"), ("analyst_tag", Val.str_ "t")]

/-- Second row with identifier "a" and a different tag. -/
def dupRowU : Row := [("news_id", Val.str_ "a"), ("analyst_tag", Val.str_ "u")]

/-- Claim C7, counterexample: the changed set is not a set for every
client submission — nothing deduplicates identifiers, so a submission
carrying the same identifier on two rows (both absent from the baseline)
yields the identifier twice in `diff_ids`. -/
theorem diff_ordered_set_counterexample :
    computeDiffIds (clientTable [dupRowT, dupRowU]) [] editable_cols = ["a", "a"] ∧
      ¬ (computeDiffIds (clientTable [dupRowT, dupRowU]) [] editable_cols).Nodup := by
  decide

/-- Claim C7, amended: for every client submission whose identifiers are
pairwise distinct, the diff result contains each identifier at most once
and the identifiers appear in the order encountered while iterating the
client submission (the changed identifiers form a duplicate-free
sublist of the client identifier sequence). -/
theorem diff_ordered_set_amended (client base : List (String × Row))
    (cols : List String) (hnodup : (client.map Prod.fst).Nodup) :
    (computeDiffIds client base cols).Sublist (client.map Prod.fst) ∧
      (computeDiffIds client base cols).Nodup := by
  have hsub : (computeDiffIds client base cols).Sublist (client.map Prod.fst) :=
    (List.filter_sublist client).map Prod.fst
  exact ⟨hsub, hnodup.sublist hsub⟩

theorem diff_ordered_set_amended_witness :
    (computeDiffIds (clientTable [dupRowT]) [] editable_cols).Sublist
        ((clientTable [dupRowT]).map Prod.fst) ∧
      (computeDiffIds (clientTable [dupRowT]) [] editable_cols).Nodup :=
  diff_ordered_set_amended (clientTable [dupRowT]) [] editable_cols (by decide)

/-- The baseline row used by the minimality counterexample: tag "t". -/
def minBaseRow : Row := [("analyst_tag", Val.str_ "t")]

/-- Claim C4, counterexample: the claim fails when the submission
repeats an identifier — the client row `dupRowT` agrees with its
baseline row on every editable field (normalized), its identifier "a" is
present in the baseline, yet "a" is in the changed set and is written,
because the second row `dupRowU` with the same identifier differs. -/
theorem diff_minimality_counterexample :
    (∀ c ∈ editable_cols,
        pyEq (normalize_value (Row.get dupRowT c))
          (normalize_value (Row.get minBaseRow c)) = true) ∧
      ("a", dupRowT) ∈ clientTable [dupRowT, dupRowU] ∧
      List.lookup "a" [("a", minBaseRow)] = some minBaseRow ∧
      "a" ∈ computeDiffIds (clientTable [dupRowT, dupRowU]) [("a", minBaseRow)]
        editable_cols ∧
      "a" ∈ (save_changes [dupRowT, dupRowU] [("a", minBaseRow)]).writes := by
  decide

/-- Claim C4, amended: for every client submission whose identifiers are
pairwise distinct, if a client row's identifier is present in the
baseline and every editable field's normalized client value compares
equal to the normalized baseline value, then that identifier does not
appear in the changed set and no update statement is executed for it. -/
theorem diff_minimality_amended (rows : List Row) (base : List (String × Row))
    (id : String) (r old : Row)
    (hnodup : ((clientTable rows).map Prod.fst).Nodup)
    (hmem : (id, r) ∈ clientTable rows)
    (hold : List.lookup id base = some old)
    (heq : ∀ c ∈ editable_cols,
      pyEq (normalize_value (Row.get r c)) (normalize_value (Row.get old c)) = true) :
    id ∉ computeDiffIds (clientTable rows) base editable_cols ∧
      id ∉ (save_changes rows base).writes := by
  have hrd : rows_differ r old editable_cols = false := rows_differ_eq_false.2 heq
  have hnotin : id ∉ computeDiffIds (clientTable rows) base editable_cols := by
    intro hin
    obtain ⟨r', hmem', hch⟩ := mem_computeDiffIds.1 hin
    have hr : List.lookup id (clientTable rows) = some r :=
      lookup_eq_of_mem_of_nodup hnodup hmem
    have hr' : List.lookup id (clientTable rows) = some r' :=
      lookup_eq_of_mem_of_nodup hnodup hmem'
    have : r' = r := by
      rw [hr] at hr'
      exact (Option.some_inj.1 hr').symm
    subst this
    simp [rowChanged, hold, hrd] at hch
  refine ⟨hnotin, ?_⟩
  by_cases h1 : rows.isEmpty
  · simp [save_changes, h1]
  · by_cases h2 : hasUniqueCol rows
    · by_cases h3 : (computeDiffIds (clientTable rows) base editable_cols).isEmpty
      · simp [save_changes, h1, h2, h3]
      · simpa [save_changes, h1, h2, h3] using hnotin
    · simp [save_changes, h1, h2]

theorem diff_minimality_amended_witness :
    "a" ∉ computeDiffIds (clientTable [dupRowT]) [("a", minBaseRow)] editable_cols ∧
      "a" ∉ (save_changes [dupRowT] [("a", minBaseRow)]).writes :=
  diff_minimality_amended [dupRowT] [("a", minBaseRow)] "a" dupRowT minBaseRow
    (by decide) (by decide) (by decide) (by decide)

/-- The client row of the idempotence counterexample: its remark is the
empty string, which `normalize_value` keeps as a string but
`clean_value` stores as null. -/
def c3row : Row := [("news_id", Val.str_ "a"), ("analyst_remark", Val.str_ "")]

/-- The baseline of the idempotence counterexample: remark "x". -/
def c3base : List (String × Row) := [("a", [("analyst_remark", Val.str_ "x")])]

/-- Claim C3, counterexample: save is not idempotent — submitting the
row with the empty-string remark succeeds ("Saved 1 records") and stores
a null (since `clean_value` nullifies the empty string), but on the
second save with the identical snapshot the diff compares
`normalize_value ""` (the empty string) against the committed null, sees
a difference, and reports "Saved 1 records" again instead of "no
changes". -/
theorem save_idempotence_counterexample :
    (save_changes [c3row] c3base).msg = SaveMsg.saved 1 ∧
      (save_changes [c3row] (commitSave [c3row] c3base)).msg = SaveMsg.saved 1 ∧
      (save_changes [c3row] (commitSave [c3row] c3base)).msg ≠ SaveMsg.noChanges := by
  decide

/-- Claim C3, amended: save is idempotent for every well-formed client
snapshot (nonempty, identifier column present, pairwise-distinct
identifiers) all of whose identifiers are present in the baseline and
all of whose editable values are round-trip stable — their normalized
form survives `clean_value`, the risk-level and category-identifier
coercions, and the store round-trip (in particular no NaN-like string
sentinel such as "", "nan" or "<NA>", no fractional risk level, no
non-canonical identifier string): after the first save's writes commit,
the second save with the identical snapshot reports exactly "no
changes", reads the baseline, and opens no write transaction. -/
theorem save_idempotent_amended (rows : List Row) (base : List (String × Row))
    (hne : rows.isEmpty = false) (hcol : hasUniqueCol rows = true)
    (hnodup : ((clientTable rows).map Prod.fst).Nodup)
    (hknown : ∀ p ∈ clientTable rows, (List.lookup p.1 base).isSome)
    (hstable : ∀ p ∈ clientTable rows, ∀ c ∈ editable_cols,
      roundtripStable c (Row.get p.2 c) = true) :
    save_changes rows (commitSave rows base) = ⟨SaveMsg.noChanges, true, false, []⟩ := by
  have hcommit : commitSave rows base =
      base.map (fun q => (q.1,
        if q.1 ∈ computeDiffIds (clientTable rows) base editable_cols then
          match List.lookup q.1 (clientTable rows) with
          | some r => storedRow r
          | none => q.2
        else q.2)) := by
    simp [commitSave, hne, hcol]
  have hdiff2 : computeDiffIds (clientTable rows) (commitSave rows base)
      editable_cols = [] := by
    apply computeDiffIds_eq_nil
    rintro ⟨id, r⟩ hp
    obtain ⟨old, hold⟩ : ∃ old, List.lookup id base = some old := by
      have := hknown (id, r) hp
      cases h : List.lookup id base with
      | none => rw [h] at this; simp at this
      | some o => exact ⟨o, rfl⟩
    have hlook : List.lookup id (commitSave rows base) =
        some (if id ∈ computeDiffIds (clientTable rows) base editable_cols then
          match List.lookup id (clientTable rows) with
          | some r' => storedRow r'
          | none => old
        else old) := by
      rw [hcommit, lookup_map_keyed
        (fun k v => if k ∈ computeDiffIds (clientTable rows) base editable_cols then
          match List.lookup k (clientTable rows) with
          | some r' => storedRow r'
          | none => v
        else v) base id, hold]
      rfl
    by_cases hid : id ∈ computeDiffIds (clientTable rows) base editable_cols
    · have hr : List.lookup id (clientTable rows) = some r :=
        lookup_eq_of_mem_of_nodup hnodup hp
      rw [hr] at hlook
      simp only [hid, if_true] at hlook
      rw [rowChanged, hlook]
      apply rows_differ_eq_false.2
      intro c hc
      rw [get_storedRow r c hc]
      have := hstable (id, r) hp c hc
      rwa [roundtripStable] at this
    · simp only [hid, if_false] at hlook
      rw [rowChanged, hlook]
      have hch : rowChanged base editable_cols (id, r) = false := by
        cases h : rowChanged base editable_cols (id, r) with
        | false => rfl
        | true => exact absurd (mem_computeDiffIds.2 ⟨r, hp, h⟩) hid
      rw [rowChanged, hold] at hch
      exact hch
  simp [save_changes, hne, hcol, hdiff2]

/-- The client row of the idempotence witness: a plain remark that is
round-trip stable. -/
def c3wRow : Row := [("news_id", Val.str_ "a"), ("analyst_remark", Val.str_ "hi")]

/-- The baseline of the idempotence witness: remark "x". -/
def c3wBase : List (String × Row) := [("a", [("analyst_remark", Val.str_ "x")])]

theorem save_idempotent_amended_witness :
    save_changes [c3wRow] (commitSave [c3wRow] c3wBase) =
      ⟨SaveMsg.noChanges, true, false, []⟩ :=
  save_idempotent_amended [c3wRow] c3wBase (by decide) (by decide) (by decide)
    (by decide) (by decide)

end AnalystDashboard
